import Mathlib

/-!
Shallow embedding of `src/verisure/session.py` (lindehoff/python-verisure,
modern-API variant).  Each Python method of `Session` becomes a pure Lean
function; the HTTP transport (`requests`) and the external deserializer
(`verisure.xmldeserializer.deserialize`, an external collaborator per the
spec) are passed in as oracles.  Every operation is a function from a
session state (and its arguments) to `Except VError α × Session`, making
state mutation and error propagation explicit.
-/

deriving instance DecidableEq for Except

namespace Verisure

/-- HTTP method used by `requests.get/post/put/delete`. -/
inductive Method
  | get
  | post
  | put
  | delete
deriving DecidableEq, Repr

/-- An HTTP request as assembled by the Python code before handing it to
`requests`: method, URL, header list, query parameters, optional body and
optional timeout (in seconds; `none` when the Python call passes no
`timeout` keyword, in which case `requests` applies no timeout). -/
structure HttpRequest where
  method : Method
  url : String
  headers : List (String × String)
  params : List (String × String)
  body : Option String
  timeout : Option Nat
deriving DecidableEq, Repr

/-- Outcome of handing a request to `requests`: either the transport raises
`requests.exceptions.RequestException` (with a message) or an HTTP response
with a status code and a body text arrives. -/
inductive HttpResult
  | exn (msg : String)
  | resp (status : Nat) (text : String)
deriving DecidableEq, Repr

/-- The transport oracle: what `requests` does for each request. -/
def Transport : Type := HttpRequest → HttpResult

/-- A deserialized response object.  The Python code only ever reads the
attributes `.cookie` (on the login response) and `.giid` (on an
installation), so those two fields model the dynamic objects returned by
`deserialize`. -/
structure Item where
  cookie : String
  giid : String
deriving DecidableEq, Repr

/-- Modelled from the spec: `verisure.xmldeserializer.deserialize` is not
under `src/`; the spec lists the XML/JSON deserializer as an external
collaborator.  It is modelled as an oracle that either returns the list of
deserialized objects or fails with its own exception (message), which
`session.py` never catches. -/
def Deserializer : Type := String → Except String (List Item)

/-- The distinct exception classes observable from `session.py`: the six
classes it defines, plus the two kinds of exceptions that escape it
uncaught — the external deserializer's own exception and Python built-in
errors (`IndexError` from `[0]` on an empty list, `TypeError` from
subscripting `None`). -/
inductive VError
  | requestError (msg : String)
  | loginError (msg : String)
  | loggedOutError (msg : String)
  | maintenanceError (msg : String)
  | temporarilyUnavailableError (msg : String)
  | responseError (msg : String)
  | deserializeFailure (msg : String)
  | pyBuiltinError (msg : String)
deriving DecidableEq, Repr

/-- The class of an error, forgetting the message. -/
inductive VErrorKind
  | requestError
  | loginError
  | loggedOutError
  | maintenanceError
  | temporarilyUnavailableError
  | responseError
  | deserializeFailure
  | pyBuiltinError
deriving DecidableEq, Repr

def VError.kind : VError → VErrorKind
  | .requestError _ => .requestError
  | .loginError _ => .loginError
  | .loggedOutError _ => .loggedOutError
  | .maintenanceError _ => .maintenanceError
  | .temporarilyUnavailableError _ => .temporarilyUnavailableError
  | .responseError _ => .responseError
  | .deserializeFailure _ => .deserializeFailure
  | .pyBuiltinError _ => .pyBuiltinError

/-- `Session.__init__`: `_vid`, `_giid` and `installations` all start as
`None`. -/
structure Session where
  username : String
  password : String
  vid : Option String
  giid : Option String
  installations : Option (List Item)
deriving DecidableEq, Repr

/-- `Session(username, password)`. -/
def Session.init (username password : String) : Session :=
  { username := username, password := password
  , vid := none, giid := none, installations := none }

/-- Python `str.format` interpolation of a field holding `None` or a
string: `str(None)` is `"None"`. -/
def pyStr : Option String → String
  | none => "None"
  | some s => s

/-- The class of the exception a call raised, if it raised one. -/
def exceptKind {α : Type} : Except VError α → Option VErrorKind
  | .error e => some e.kind
  | .ok _ => none

/-! URL constants of `session.py`.  Python's `str.format` templates become
functions of the interpolated fields; silently ignored extra keyword
arguments (a Python `str.format` behaviour that matters in
`set_lockstate`) are simply absent parameters. -/

def BASE_URL : String := "https://e-api02.verisure.com/xbn/2/"

def INSTALLATION_URL (guid : String) : String :=
  BASE_URL ++ "installation/" ++ guid ++ "/"

def LOGIN_URL : String := BASE_URL ++ "cookie"

def LOGOUT_URL : String := BASE_URL ++ "cookie"

def GET_INSTALLATIONS_URL (username : String) : String :=
  BASE_URL ++ "installation/search?email=" ++ username

def OVERVIEW_URL (guid : String) : String :=
  INSTALLATION_URL guid ++ "overview"

def SMARTPLUG_URL (guid : String) : String :=
  INSTALLATION_URL guid ++ "smartplug/state"

def SET_ARMSTATE_URL (guid : String) : String :=
  INSTALLATION_URL guid ++ "armstate/code"

def HISTORY_URL (guid : String) : String :=
  INSTALLATION_URL guid ++ "eventlog"

def CLIMATE_URL (guid : String) : String :=
  INSTALLATION_URL guid ++ "climate/simple/search"

def GET_LOCKSTATE_URL (guid : String) : String :=
  INSTALLATION_URL guid ++ "doorlockstate/search"

def SET_LOCKSTATE_URL (guid deviceLabel state : String) : String :=
  INSTALLATION_URL guid ++ "device/" ++ deviceLabel ++ "/" ++ state

/-- `RESPONSE_TIMEOUT = 10` (line 23 of the source).  Defined there but
never passed to any `requests` call. -/
def RESPONSE_TIMEOUT : Nat := 10

/-! Base64, for the `Authorization` header built by `login`. -/

/-- UTF-8 encoding of one character, as byte values. -/
def utf8Bytes (c : Char) : List Nat :=
  let n := c.toNat
  if n < 0x80 then [n]
  else if n < 0x800 then
    [0xC0 + n / 0x40, 0x80 + n % 0x40]
  else if n < 0x10000 then
    [0xE0 + n / 0x1000, 0x80 + n / 0x40 % 0x40, 0x80 + n % 0x40]
  else
    [0xF0 + n / 0x40000, 0x80 + n / 0x1000 % 0x40,
     0x80 + n / 0x40 % 0x40, 0x80 + n % 0x40]

def strBytes (s : String) : List Nat :=
  s.data.flatMap utf8Bytes

def b64Alphabet : List Char :=
  "ABCDEFGHIJKLMNOPQRSTUVWXYZabcdefghijklmnopqrstuvwxyz0123456789+/".data

def b64Char (n : Nat) : Char := b64Alphabet.getD n 'A'

/-- Base64 of a byte list, with `=` padding, as `base64.b64encode`. -/
def b64EncodeBytes : List Nat → String
  | [] => ""
  | [a] =>
    String.mk [b64Char (a / 4), b64Char (a % 4 * 16)] ++ "=="
  | [a, b] =>
    String.mk [b64Char (a / 4), b64Char (a % 4 * 16 + b / 16),
               b64Char (b % 16 * 4)] ++ "="
  | a :: b :: c :: rest =>
    String.mk [b64Char (a / 4), b64Char (a % 4 * 16 + b / 16),
               b64Char (b % 16 * 4 + c / 64), b64Char (c % 64)]
      ++ b64EncodeBytes rest

def b64encode (s : String) : String := b64EncodeBytes (strBytes s)

/-! `json.dumps` with its default settings (separators `", "` and `": "`,
`ensure_ascii=True`), restricted to the value shapes `session.py`
serializes: flat objects whose values are strings or booleans, and arrays
of such objects. -/

/-- A JSON leaf value appearing in the bodies built by `session.py`. -/
inductive JVal
  | str (s : String)
  | bool (b : Bool)
deriving DecidableEq, Repr

/-- Lowercase hex digit. -/
def hexDigit (n : Nat) : Char :=
  "0123456789abcdef".data.getD n '0'

/-- `\uXXXX` escape of a code unit value below 0x10000. -/
def uEscape (n : Nat) : String :=
  String.mk ['\\', 'u', hexDigit (n / 0x1000 % 16), hexDigit (n / 0x100 % 16),
             hexDigit (n / 16 % 16), hexDigit (n % 16)]

/-- Escaping of one character inside a JSON string literal, as
`json.dumps` with `ensure_ascii=True`: `"` and `\` are backslash-escaped,
the named control escapes are used, every other character outside
printable ASCII becomes `\uXXXX` (a surrogate pair above 0xFFFF). -/
def jsonEscapeChar (c : Char) : String :=
  if c = '"' then "\\\""
  else if c = '\\' then "\\\\"
  else if c = '\x08' then "\\b"
  else if c = '\x0c' then "\\f"
  else if c = '\n' then "\\n"
  else if c = '\r' then "\\r"
  else if c = '\t' then "\\t"
  else if c.toNat < 0x20 ∨ 0x7e < c.toNat then
    if c.toNat < 0x10000 then uEscape c.toNat
    else
      uEscape (0xd800 + (c.toNat - 0x10000) / 0x400)
        ++ uEscape (0xdc00 + (c.toNat - 0x10000) % 0x400)
  else String.singleton c

def jsonEscapeList : List Char → String
  | [] => ""
  | c :: cs => jsonEscapeChar c ++ jsonEscapeList cs

def jsonEscape (s : String) : String := jsonEscapeList s.data

/-- JSON string literal. -/
def dumpsStr (s : String) : String := "\"" ++ jsonEscape s ++ "\""

def dumpsVal : JVal → String
  | .str s => dumpsStr s
  | .bool b => if b then "true" else "false"

def dumpsMembers : List (String × JVal) → String
  | [] => ""
  | [(k, v)] => dumpsStr k ++ ": " ++ dumpsVal v
  | (k, v) :: kvs => dumpsStr k ++ ": " ++ dumpsVal v ++ ", " ++ dumpsMembers kvs

/-- `json.dumps` of a flat object. -/
def dumpsObj (kvs : List (String × JVal)) : String :=
  "\x7b" ++ dumpsMembers kvs ++ "\x7d"

def dumpsElems : List (List (String × JVal)) → String
  | [] => ""
  | [o] => dumpsObj o
  | o :: os => dumpsObj o ++ ", " ++ dumpsElems os

/-- `json.dumps` of an array of flat objects. -/
def dumpsArr (os : List (List (String × JVal))) : String :=
  "[" ++ dumpsElems os ++ "]"

/-! The `Session` methods.  Each request builder is the argument list of
the corresponding `requests.get/post/put/delete` call; each operation
threads the session state explicitly and returns
`Except VError α × Session`. -/

/-- The `Cookie` header value `'vid={}'.format(self._vid)`. -/
def cookieHeader (s : Session) : String × String :=
  ("Cookie", "vid=" ++ pyStr s.vid)

/-- The `Authorization` value built by `login`:
`'Basic ' + b64encode('CPE/{username}:{password}')`. -/
def authHeader (s : Session) : String × String :=
  ("Authorization",
   "Basic " ++ b64encode ("CPE/" ++ s.username ++ ":" ++ s.password))

/-- `Session.validate_response`: returns for status 200, otherwise raises
`ResponseError` with the status code and body in the message. -/
def validate_response (status : Nat) (text : String) : Except VError Unit :=
  if status = 200 then .ok ()
  else .error (.responseError
    ("Unable to validate response form My Pages, status code: "
      ++ toString status ++ " - Data: " ++ text))

/-- The request issued by `login`:
`requests.post(LOGIN_URL, headers={'Authorization': auth})`. -/
def loginRequest (s : Session) : HttpRequest :=
  { method := .post, url := LOGIN_URL, headers := [authHeader s]
  , params := [], body := none, timeout := none }

/-- The request issued by `_get_installations`. -/
def installationsRequest (s : Session) : HttpRequest :=
  { method := .get, url := GET_INSTALLATIONS_URL s.username
  , headers := [cookieHeader s], params := [], body := none, timeout := none }

/-- `Session._get_installations`: GET the installation search, validate,
store the deserialized list in `self.installations`. -/
def get_installations (des : Deserializer) (t : Transport) (s : Session) :
    Except VError Unit × Session :=
  match t (installationsRequest s) with
  | .exn m => (.error (.requestError m), s)
  | .resp status text =>
    match validate_response status text with
    | .error e => (.error e, s)
    | .ok () =>
      match des text with
      | .error m => (.error (.deserializeFailure m), s)
      | .ok items => (.ok (), { s with installations := some items })

/-- `Session.login`: POST credentials, validate, store
`deserialize(response.text)[0].cookie` in `self._vid`, fetch the
installations, then set `self._giid = self.installations[0].giid`. -/
def login (des : Deserializer) (t : Transport) (s : Session) :
    Except VError Unit × Session :=
  match t (loginRequest s) with
  | .exn m => (.error (.requestError m), s)
  | .resp status text =>
    match validate_response status text with
    | .error e => (.error e, s)
    | .ok () =>
      match des text with
      | .error m => (.error (.deserializeFailure m), s)
      | .ok items =>
        match items.head? with
        | none => (.error (.pyBuiltinError "list index out of range"), s)
        | some it =>
          let s1 : Session := { s with vid := some it.cookie }
          match get_installations des t s1 with
          | (.error e, s2) => (.error e, s2)
          | (.ok (), s2) =>
            match s2.installations with
            | none =>
              (.error (.pyBuiltinError "NoneType is not subscriptable"), s2)
            | some [] =>
              (.error (.pyBuiltinError "list index out of range"), s2)
            | some (inst :: _) => (.ok (), { s2 with giid := some inst.giid })

/-- `Session.set_giid`. -/
def set_giid (s : Session) (giid : String) : Session :=
  { s with giid := some giid }

/-- The request issued by `get_overview`. -/
def overviewRequest (s : Session) : HttpRequest :=
  { method := .get, url := OVERVIEW_URL (pyStr s.giid)
  , headers := [cookieHeader s], params := [], body := none, timeout := none }

/-- `Session.get_overview`: GET, validate, return
`deserialize(response.text)[0]`. -/
def get_overview (des : Deserializer) (t : Transport) (s : Session) :
    Except VError Item × Session :=
  match t (overviewRequest s) with
  | .exn m => (.error (.requestError m), s)
  | .resp status text =>
    match validate_response status text with
    | .error e => (.error e, s)
    | .ok () =>
      match des text with
      | .error m => (.error (.deserializeFailure m), s)
      | .ok items =>
        match items.head? with
        | none => (.error (.pyBuiltinError "list index out of range"), s)
        | some it => (.ok it, s)

/-- The request issued by `set_smartplug_state`: POST with JSON body
`[{"deviceLabel": device_label, "state": state}]` and a
`Content-Type: application/json` header. -/
def smartplugRequest (s : Session) (device_label : String) (state : Bool) :
    HttpRequest :=
  { method := .post, url := SMARTPLUG_URL (pyStr s.giid)
  , headers := [("Content-Type", "application/json"), cookieHeader s]
  , params := []
  , body := some (dumpsArr [[("deviceLabel", .str device_label),
                             ("state", .bool state)]])
  , timeout := none }

/-- `Session.set_smartplug_state`: POST, validate; returns nothing. -/
def set_smartplug_state (t : Transport) (s : Session)
    (device_label : String) (state : Bool) : Except VError Unit × Session :=
  match t (smartplugRequest s device_label state) with
  | .exn m => (.error (.requestError m), s)
  | .resp status text =>
    match validate_response status text with
    | .error e => (.error e, s)
    | .ok () => (.ok (), s)

/-- The request issued by `set_arm_state`: PUT with JSON body
`{"code": str(code), "state": state}`. -/
def armstateRequest (s : Session) (code state : String) : HttpRequest :=
  { method := .put, url := SET_ARMSTATE_URL (pyStr s.giid)
  , headers := [("Content-Type", "application/json"), cookieHeader s]
  , params := []
  , body := some (dumpsObj [("code", .str code), ("state", .str state)])
  , timeout := none }

/-- `Session.set_arm_state`: PUT, validate; returns nothing. -/
def set_arm_state (t : Transport) (s : Session) (code state : String) :
    Except VError Unit × Session :=
  match t (armstateRequest s code state) with
  | .exn m => (.error (.requestError m), s)
  | .resp status text =>
    match validate_response status text with
    | .error e => (.error e, s)
    | .ok () => (.ok (), s)

/-- The request issued by `get_history`, with `offset`/`pagesize` query
parameters. -/
def historyRequest (s : Session) (pagesize offset : Int) : HttpRequest :=
  { method := .get, url := HISTORY_URL (pyStr s.giid)
  , headers := [cookieHeader s]
  , params := [("offset", toString offset), ("pagesize", toString pagesize)]
  , body := none, timeout := none }

/-- `Session.get_history`: GET, validate, return
`deserialize(response.text)[0]`. -/
def get_history (des : Deserializer) (t : Transport) (s : Session)
    (pagesize offset : Int) : Except VError Item × Session :=
  match t (historyRequest s pagesize offset) with
  | .exn m => (.error (.requestError m), s)
  | .resp status text =>
    match validate_response status text with
    | .error e => (.error e, s)
    | .ok () =>
      match des text with
      | .error m => (.error (.deserializeFailure m), s)
      | .ok items =>
        match items.head? with
        | none => (.error (.pyBuiltinError "list index out of range"), s)
        | some it => (.ok it, s)

/-- The request issued by `get_climate`, with a `deviceLabel` query
parameter. -/
def climateRequest (s : Session) (device_label : String) : HttpRequest :=
  { method := .get, url := CLIMATE_URL (pyStr s.giid)
  , headers := [cookieHeader s]
  , params := [("deviceLabel", device_label)]
  , body := none, timeout := none }

/-- `Session.get_climate`: GET, validate, return
`deserialize(response.text)[0]`. -/
def get_climate (des : Deserializer) (t : Transport) (s : Session)
    (device_label : String) : Except VError Item × Session :=
  match t (climateRequest s device_label) with
  | .exn m => (.error (.requestError m), s)
  | .resp status text =>
    match validate_response status text with
    | .error e => (.error e, s)
    | .ok () =>
      match des text with
      | .error m => (.error (.deserializeFailure m), s)
      | .ok items =>
        match items.head? with
        | none => (.error (.pyBuiltinError "list index out of range"), s)
        | some it => (.ok it, s)

/-- The request issued by `get_lockstate`. -/
def lockstateRequest (s : Session) : HttpRequest :=
  { method := .get, url := GET_LOCKSTATE_URL (pyStr s.giid)
  , headers := [cookieHeader s], params := [], body := none, timeout := none }

/-- `Session.get_lockstate`: GET, validate, return
`deserialize(response.text)[0]`. -/
def get_lockstate (des : Deserializer) (t : Transport) (s : Session) :
    Except VError Item × Session :=
  match t (lockstateRequest s) with
  | .exn m => (.error (.requestError m), s)
  | .resp status text =>
    match validate_response status text with
    | .error e => (.error e, s)
    | .ok () =>
      match des text with
      | .error m => (.error (.deserializeFailure m), s)
      | .ok items =>
        match items.head? with
        | none => (.error (.pyBuiltinError "list index out of range"), s)
        | some it => (.ok it, s)

/-- The request issued by `set_lockstate`: a PUT whose URL the source
builds with `GET_LOCKSTATE_URL.format(guid=..., device_label=..., state=...)`;
`GET_LOCKSTATE_URL` contains only the `{guid}` placeholder and Python's
`str.format` silently ignores the extra keyword arguments, so the URL is
the doorlockstate-search URL and the body is `{"code": str(code)}`. -/
def setLockstateRequest (s : Session)
    (code device_label state : String) : HttpRequest :=
  { method := .put, url := GET_LOCKSTATE_URL (pyStr s.giid)
  , headers := [cookieHeader s]
  , params := []
  , body := some (dumpsObj [("code", .str code)])
  , timeout := none }

/-- `Session.set_lockstate`: PUT, validate, return
`deserialize(response.text)[0]`. -/
def set_lockstate (des : Deserializer) (t : Transport) (s : Session)
    (code device_label state : String) : Except VError Item × Session :=
  match t (setLockstateRequest s code device_label state) with
  | .exn m => (.error (.requestError m), s)
  | .resp status text =>
    match validate_response status text with
    | .error e => (.error e, s)
    | .ok () =>
      match des text with
      | .error m => (.error (.deserializeFailure m), s)
      | .ok items =>
        match items.head? with
        | none => (.error (.pyBuiltinError "list index out of range"), s)
        | some it => (.ok it, s)

/-- The request issued by `logout`:
`requests.delete(LOGOUT_URL, headers={'Cookie': ...})`. -/
def logoutRequest (s : Session) : HttpRequest :=
  { method := .delete, url := LOGOUT_URL
  , headers := [cookieHeader s], params := [], body := none, timeout := none }

/-- `Session.logout`: DELETE, validate; no session field is assigned. -/
def logout (t : Transport) (s : Session) : Except VError Unit × Session :=
  match t (logoutRequest s) with
  | .exn m => (.error (.requestError m), s)
  | .resp status text =>
    match validate_response status text with
    | .error e => (.error e, s)
    | .ok () => (.ok (), s)

/-! Concrete transports, deserializers and sessions used to exercise the
operations on specific scenarios. -/

/-- A server that answers every request with the given status and body. -/
def respTransport (status : Nat) (text : String) : Transport :=
  fun _ => HttpResult.resp status text

/-- A server that answers every request with 200 and the given body. -/
def okTransport (text : String) : Transport := respTransport 200 text

/-- A deserializer that parses every body to the given object list. -/
def desConst (items : List Item) : Deserializer := fun _ => .ok items

/-- A deserializer that fails on every body with the given message. -/
def desFail (msg : String) : Deserializer := fun _ => .error msg

/-- A session that has logged in: `_vid` and `_giid` are set. -/
def authedSession : Session :=
  { username := "u", password := "p", vid := some "v"
  , giid := some "g", installations := some [] }

/-- A server for the login scenario: the login URL gets one body, every
other URL (the installation search) another. -/
def loginDemoTransport : Transport :=
  fun req => if req.url = LOGIN_URL then .resp 200 "cookie-page"
             else .resp 200 "inst-page"

/-- A deserializer for the login scenario: the login body parses to an
object carrying the cookie, the installation body to one installation. -/
def loginDemoDes : Deserializer :=
  fun text => if text = "cookie-page" then .ok [{ cookie := "v123", giid := "" }]
              else .ok [{ cookie := "", giid := "giid-1" }]

/-! Claim C1: classification of non-200 responses. -/

/-- C1 counterexample: a non-200 response whose body is the failure-page
title "My Pages is temporarily unavailable" raises the generic
`ResponseError`, not `TemporarilyUnavailableError`, contradicting the
claimed classification table. -/
theorem C1_counterexample :
    exceptKind (validate_response 503 "My Pages is temporarily unavailable")
      = some VErrorKind.responseError
    ∧ exceptKind (validate_response 503 "My Pages is temporarily unavailable")
      ≠ some VErrorKind.temporarilyUnavailableError := by
  decide

/-- C1 (amended): `validate_response` never inspects the body for failure-
page titles; every response with status code not equal to 200 raises the
generic `ResponseError`, whatever the body contains. -/
theorem C1_nonok_raises_ResponseError (status : Nat) (text : String)
    (h : status ≠ 200) :
    validate_response status text = .error (.responseError
      ("Unable to validate response form My Pages, status code: "
        ++ toString status ++ " - Data: " ++ text)) := by
  unfold validate_response
  rw [if_neg h]

/-- C1 witness: the amended statement at status 503 and a maintenance-page
body. -/
theorem C1_witness :
    validate_response 503 "My Pages - Maintenance" = .error (.responseError
      ("Unable to validate response form My Pages, status code: "
        ++ "503 - Data: My Pages - Maintenance")) :=
  C1_nonok_raises_ResponseError 503 "My Pages - Maintenance" (by decide)

/-! Claim C2: behaviour of installation-scoped operations before login. -/

/-- C2 counterexample: `get_overview` on a freshly constructed session
(no login ever performed, `_vid` and `_giid` both `None`) raises no
"session not started" error; it sends the request — with `None`
interpolated into the URL — and succeeds when the server answers 200. -/
theorem C2_counterexample :
    (get_overview (desConst [{ cookie := "c1", giid := "g1" }])
        (okTransport "body") (Session.init "user" "pw")).1
      = .ok { cookie := "c1", giid := "g1" }
    ∧ (overviewRequest (Session.init "user" "pw")).url
      = "https://e-api02.verisure.com/xbn/2/installation/None/overview" := by
  decide

/-- C2 (amended): no installation-scoped operation checks that `login`
has run.  On a fresh session each one builds its request with the string
`"None"` where the installation id belongs, carries the unauthenticated
cookie `vid=None`, and hands that request to the transport — succeeding
whenever the server answers 200 with a parseable body. -/
theorem C2_no_session_started_check (u p dl code state b : String)
    (st : Bool) (ps off : Int) (item : Item) :
    (overviewRequest (Session.init u p)).url
        = BASE_URL ++ "installation/None/overview"
    ∧ (overviewRequest (Session.init u p)).headers = [("Cookie", "vid=None")]
    ∧ (smartplugRequest (Session.init u p) dl st).url
        = BASE_URL ++ "installation/None/smartplug/state"
    ∧ (armstateRequest (Session.init u p) code state).url
        = BASE_URL ++ "installation/None/armstate/code"
    ∧ (historyRequest (Session.init u p) ps off).url
        = BASE_URL ++ "installation/None/eventlog"
    ∧ (climateRequest (Session.init u p) dl).url
        = BASE_URL ++ "installation/None/climate/simple/search"
    ∧ (lockstateRequest (Session.init u p)).url
        = BASE_URL ++ "installation/None/doorlockstate/search"
    ∧ (setLockstateRequest (Session.init u p) code dl state).url
        = BASE_URL ++ "installation/None/doorlockstate/search"
    ∧ (get_overview (desConst [item]) (okTransport b) (Session.init u p)).1
        = .ok item := by
  refine ⟨rfl, rfl, rfl, rfl, rfl, rfl, rfl, rfl, rfl⟩

/-! Claim C3: login with rejected credentials. -/

/-- C3 counterexample: when the server rejects the credentials with a 401,
`login` raises the generic `ResponseError` — `LoginError` is never raised
anywhere in this variant — although the session state is indeed left
empty. -/
theorem C3_counterexample :
    exceptKind (login (desConst []) (respTransport 401 "denied")
        (Session.init "u" "p")).1
      = some VErrorKind.responseError
    ∧ exceptKind (login (desConst []) (respTransport 401 "denied")
        (Session.init "u" "p")).1
      ≠ some VErrorKind.loginError
    ∧ (login (desConst []) (respTransport 401 "denied")
        (Session.init "u" "p")).2
      = Session.init "u" "p" := by
  decide

/-- C3 (amended): when the login POST comes back with a non-200 status,
`login` raises `ResponseError` (not `LoginError`, which this variant never
raises) and leaves the authentication context untouched: `_vid`, `_giid`
and `installations` remain `None` on a fresh session. -/
theorem C3_rejected_login_raises_ResponseError (des : Deserializer)
    (t : Transport) (u p : String) (status : Nat) (text : String)
    (hresp : t (loginRequest (Session.init u p)) = .resp status text)
    (hstatus : status ≠ 200) :
    login des t (Session.init u p)
      = (.error (.responseError
          ("Unable to validate response form My Pages, status code: "
            ++ toString status ++ " - Data: " ++ text)),
         Session.init u p) := by
  simp [login, hresp, validate_response, hstatus]

/-- C3 witness: the amended statement on a server that answers 401. -/
theorem C3_witness :
    login (desConst []) (respTransport 401 "denied") (Session.init "u" "p")
      = (.error (.responseError
          ("Unable to validate response form My Pages, status code: "
            ++ "401 - Data: denied")),
         Session.init "u" "p") :=
  C3_rejected_login_raises_ResponseError (desConst []) (respTransport 401 "denied")
    "u" "p" 401 "denied" rfl (by decide)

/-! Claim C4: the successful login path. -/

/-- C4: when the login POST succeeds (status 200, body deserializing to a
non-empty object list) and the installation-discovery GET succeeds
likewise, `login` returns successfully having stored the session
identifier `deserialize(login body)[0].cookie` in `_vid`, the non-empty
deserialized installation list in `installations`, and the first
installation's giid — `installations[0].giid` — in `_giid`. -/
theorem C4_login_success (des : Deserializer) (t : Transport) (s : Session)
    (tx1 tx2 : String) (it : Item) (r : List Item) (inst : Item)
    (ir : List Item)
    (h1 : t (loginRequest s) = .resp 200 tx1)
    (h2 : des tx1 = .ok (it :: r))
    (h3 : t (installationsRequest { s with vid := some it.cookie })
            = .resp 200 tx2)
    (h4 : des tx2 = .ok (inst :: ir)) :
    login des t s
      = (.ok (), { s with
                   vid := some it.cookie,
                   installations := some (inst :: ir),
                   giid := some inst.giid }) := by
  simp [login, get_installations, validate_response, h1, h2, h3, h4]

/-- C4 witness: the login scenario with a server that hands out cookie
`v123` and a single installation `giid-1`. -/
theorem C4_witness :
    login loginDemoDes loginDemoTransport (Session.init "u" "p")
      = (.ok (), { Session.init "u" "p" with
                   vid := some "v123",
                   installations := some [{ cookie := "", giid := "giid-1" }],
                   giid := some "giid-1" }) :=
  C4_login_success loginDemoDes loginDemoTransport (Session.init "u" "p")
    "cookie-page" "inst-page" { cookie := "v123", giid := "" } []
    { cookie := "", giid := "giid-1" } []
    (by decide) (by decide) (by decide) (by decide)

/-! Claim C5: 200 responses whose body does not parse. -/

/-- C5 counterexample: on a 200 response with an unparseable body, the
deserializer's own exception escapes `session.py` unhandled — for
`get_overview` it is not a `ResponseError`, and for `login` it is not a
`LoginError`, contradicting the claimed wrapping. -/
theorem C5_counterexample :
    exceptKind (get_overview (desFail "no parse") (okTransport "garbage")
        (Session.init "u" "p")).1
      = some VErrorKind.deserializeFailure
    ∧ exceptKind (get_overview (desFail "no parse") (okTransport "garbage")
        (Session.init "u" "p")).1
      ≠ some VErrorKind.responseError
    ∧ exceptKind (login (desFail "no parse") (okTransport "garbage")
        (Session.init "u" "p")).1
      = some VErrorKind.deserializeFailure
    ∧ exceptKind (login (desFail "no parse") (okTransport "garbage")
        (Session.init "u" "p")).1
      ≠ some VErrorKind.loginError := by
  decide

/-- C5 (amended): on a 200 response whose body the deserializer rejects,
the deserializer's failure propagates to the caller unwrapped — the same
exception for `login` as for `get_overview`, so neither a `ResponseError`
nor a `LoginError` is raised by `session.py` — and the operation returns
no data and leaves the session unchanged (so no partial data is ever
silently returned). -/
theorem C5_parse_failure_propagates (des : Deserializer) (t : Transport)
    (s : Session) (tx m : String) (hd : des tx = .error m) :
    (t (overviewRequest s) = .resp 200 tx →
      get_overview des t s = (.error (.deserializeFailure m), s))
    ∧ (t (loginRequest s) = .resp 200 tx →
      login des t s = (.error (.deserializeFailure m), s)) := by
  constructor
  · intro hresp
    simp [get_overview, validate_response, hresp, hd]
  · intro hresp
    simp [login, validate_response, hresp, hd]

/-- C5 witness: the amended statement on a server answering 200 with a
body the deserializer rejects. -/
theorem C5_witness :
    get_overview (desFail "bad") (okTransport "g") (Session.init "u" "p")
      = (.error (.deserializeFailure "bad"), Session.init "u" "p")
    ∧ login (desFail "bad") (okTransport "g") (Session.init "u" "p")
      = (.error (.deserializeFailure "bad"), Session.init "u" "p") :=
  ⟨(C5_parse_failure_propagates (desFail "bad") (okTransport "g")
      (Session.init "u" "p") "g" "bad" rfl).1 rfl,
   (C5_parse_failure_propagates (desFail "bad") (okTransport "g")
      (Session.init "u" "p") "g" "bad" rfl).2 rfl⟩

/-! Claim C6: the URL built by `set_lockstate`. -/

/-- C6: `set_lockstate` does not use the `SET_LOCKSTATE_URL` template at
all.  The source formats `GET_LOCKSTATE_URL` (whose only placeholder is
`{guid}`; the extra `device_label`/`state` keyword arguments are silently
ignored by Python's `str.format`), so with installation id `g1`, device
label `lock1` and state `LOCK` the PUT goes to the
doorlockstate-search URL, which differs from the claimed
`device/lock1/LOCK` endpoint and mentions neither the device label nor
the state. -/
theorem C6_set_lockstate_url_bug :
    (setLockstateRequest authedSession "1234" "lock1" "LOCK").url
      = "https://e-api02.verisure.com/xbn/2/installation/g/doorlockstate/search"
    ∧ (setLockstateRequest authedSession "1234" "lock1" "LOCK").url
      ≠ SET_LOCKSTATE_URL "g" "lock1" "LOCK"
    ∧ SET_LOCKSTATE_URL "g" "lock1" "LOCK"
      = "https://e-api02.verisure.com/xbn/2/installation/g/device/lock1/LOCK" := by
  decide

/-! Claim C7: what `logout` does. -/

/-- C7 counterexample: after a successful `logout` on an authenticated
session, the local authentication state is NOT released — `_vid` is still
the old token and `_giid` the old installation id — contradicting the
claim's clearing requirement. -/
theorem C7_counterexample :
    logout (okTransport "") authedSession = (.ok (), authedSession)
    ∧ authedSession.vid = some "v"
    ∧ authedSession.giid = some "g" := by
  decide

/-- C7 (amended): `logout` issues a DELETE to the session endpoint
(`LOGOUT_URL`), invalidating the session server-side, but it assigns no
session field: the local authentication state (`_vid`, `_giid`,
`installations`) is left exactly as it was, whatever the outcome. -/
theorem C7_logout_deletes_but_keeps_state (t : Transport) (s : Session) :
    (logoutRequest s).method = Method.delete
    ∧ (logoutRequest s).url = LOGOUT_URL
    ∧ (logout t s).2 = s := by
  refine ⟨rfl, rfl, ?_⟩
  unfold logout
  split
  · rfl
  · split <;> rfl

/-! Claim C8: request timeouts. -/

/-- C8: `RESPONSE_TIMEOUT` is 10 but no request ever carries it — every
request any `Session` operation issues is sent without a `timeout`
argument, so `requests` applies no timeout at all and a call can block
indefinitely on the transport. -/
theorem C8_no_request_has_a_timeout (s : Session) (dl code state : String)
    (st : Bool) (ps off : Int) :
    RESPONSE_TIMEOUT = 10
    ∧ (loginRequest s).timeout = none
    ∧ (installationsRequest s).timeout = none
    ∧ (overviewRequest s).timeout = none
    ∧ (smartplugRequest s dl st).timeout = none
    ∧ (armstateRequest s code state).timeout = none
    ∧ (historyRequest s ps off).timeout = none
    ∧ (climateRequest s dl).timeout = none
    ∧ (lockstateRequest s).timeout = none
    ∧ (setLockstateRequest s code dl state).timeout = none
    ∧ (logoutRequest s).timeout = none := by
  refine ⟨rfl, rfl, rfl, rfl, rfl, rfl, rfl, rfl, rfl, rfl, rfl⟩

/-! Claim C9: the smart-plug request body.  The escaping lemmas show that
`json.dumps` leaves a printable-ASCII device label (no quote, no
backslash) unchanged inside the string literal. -/

/-- A character `json.dumps` writes as itself: printable ASCII, neither
the quote nor the backslash. -/
abbrev plainChar (c : Char) : Prop :=
  0x20 ≤ c.toNat ∧ c.toNat ≤ 0x7e ∧ c ≠ '"' ∧ c ≠ '\\'

theorem jsonEscapeChar_plain (c : Char) (h : plainChar c) :
    jsonEscapeChar c = String.singleton c := by
  obtain ⟨h1, h2, h3, h4⟩ := h
  have hb : c ≠ '\x08' := fun hc => absurd (hc ▸ h1) (by decide)
  have hf : c ≠ '\x0c' := fun hc => absurd (hc ▸ h1) (by decide)
  have hn : c ≠ '\n' := fun hc => absurd (hc ▸ h1) (by decide)
  have hr : c ≠ '\r' := fun hc => absurd (hc ▸ h1) (by decide)
  have ht : c ≠ '\t' := fun hc => absurd (hc ▸ h1) (by decide)
  have hrange : ¬(c.toNat < 0x20 ∨ 0x7e < c.toNat) := by omega
  unfold jsonEscapeChar
  rw [if_neg h3, if_neg h4, if_neg hb, if_neg hf, if_neg hn, if_neg hr,
      if_neg ht, if_neg hrange]

theorem jsonEscapeList_plain (cs : List Char) (h : ∀ c ∈ cs, plainChar c) :
    jsonEscapeList cs = String.mk cs := by
  induction cs with
  | nil => rfl
  | cons c cs ih =>
    have hc := h c (List.mem_cons_self c cs)
    have hrest : ∀ x ∈ cs, plainChar x :=
      fun x hx => h x (List.mem_cons_of_mem _ hx)
    show jsonEscapeChar c ++ jsonEscapeList cs = String.mk (c :: cs)
    rw [jsonEscapeChar_plain c hc, ih hrest]
    rfl

theorem jsonEscape_plain (s : String) (h : ∀ c ∈ s.data, plainChar c) :
    jsonEscape s = s := by
  unfold jsonEscape
  rw [jsonEscapeList_plain s.data h]

theorem strData_append (a b : String) : (a ++ b).data = a.data ++ b.data := by
  cases a; cases b; rfl

theorem strEq_of_data (a b : String) (h : a.data = b.data) : a = b := by
  cases a; cases b; exact congrArg String.mk h

/-- C9: for any device label made of plain printable-ASCII characters,
the body of the request `set_smartplug_state` builds is exactly the JSON
array `[{"deviceLabel": <device_label>, "state": <state>}]` (with `true`
or `false` for the boolean), and the request carries the
`Content-Type: application/json` header. -/
theorem C9_smartplug_body_and_header (s : Session) (device_label : String)
    (state : Bool) (h : ∀ c ∈ device_label.data, plainChar c) :
    (smartplugRequest s device_label state).body
      = some ("[\x7b\"deviceLabel\": \"" ++ device_label ++ "\", \"state\": "
              ++ (if state then "true" else "false") ++ "\x7d]")
    ∧ ("Content-Type", "application/json")
        ∈ (smartplugRequest s device_label state).headers := by
  constructor
  · have he : jsonEscape device_label = device_label := jsonEscape_plain _ h
    have hd1 : jsonEscape "deviceLabel" = "deviceLabel" := by decide
    have hd2 : jsonEscape "state" = "state" := by decide
    show some (dumpsArr [[("deviceLabel", .str device_label),
                          ("state", .bool state)]]) = _
    congr 1
    apply strEq_of_data
    cases state <;>
      simp [dumpsArr, dumpsElems, dumpsObj, dumpsMembers, dumpsVal, dumpsStr,
            he, hd1, hd2, strData_append, List.append_assoc]
  · simp [smartplugRequest]

/-- C9 witness: `set_smartplug_state(device_label="switch1", state=True)`
produces the body `[{"deviceLabel": "switch1", "state": true}]`. -/
theorem C9_witness :
    (smartplugRequest authedSession "switch1" true).body
      = some "[\x7b\"deviceLabel\": \"switch1\", \"state\": true\x7d]"
    ∧ ("Content-Type", "application/json")
        ∈ (smartplugRequest authedSession "switch1" true).headers :=
  C9_smartplug_body_and_header authedSession "switch1" true (by decide)

/-! Claim C10: data operations never touch session state. -/

/-- C10: every data operation — `get_overview`, `set_smartplug_state`,
`set_arm_state`, `get_history`, `get_climate`, `get_lockstate`,
`set_lockstate` — returns the session state exactly as it received it, on
every control path (transport exception, non-200 response, parse failure,
empty list, success): none of them assigns any field of `self`. -/
theorem C10_data_ops_preserve_state (des : Deserializer) (t : Transport)
    (s : Session) (dl code state : String) (b : Bool) (ps off : Int) :
    (get_overview des t s).2 = s
    ∧ (set_smartplug_state t s dl b).2 = s
    ∧ (set_arm_state t s code state).2 = s
    ∧ (get_history des t s ps off).2 = s
    ∧ (get_climate des t s dl).2 = s
    ∧ (get_lockstate des t s).2 = s
    ∧ (set_lockstate des t s code dl state).2 = s := by
  refine ⟨?_, ?_, ?_, ?_, ?_, ?_, ?_⟩ <;>
    simp only [get_overview, set_smartplug_state, set_arm_state, get_history,
               get_climate, get_lockstate, set_lockstate] <;>
    (repeat' split) <;> rfl

end Verisure
